import Mathlib

/-!
Verification of the device liveness monitor of the Wasteland-Companion
repository: a shallow embedding of src/server/deviceMonitor.ts,
src/server/storage.ts (device operations), src/shared/schema.ts and the
device routes of src/server/routes.ts, together with proofs about them.

Modelling conventions:
- timestamps are Nat (milliseconds); new Date() at a pass is the
  parameter now;
- the devices table is a List Device; a Drizzle update .. where eq(id)
  maps the matching rows and .returning() yields the first updated row;
- JavaScript exceptions are modelled with Except: a function that can
  throw returns Except, a try/catch is a match on that Except;
- external effects (the database connection, the ping subprocess) are
  oracles passed in as functions, so every behaviour of the environment
  is quantified over.
-/

namespace WastelandCompanion

/-- Device record, from the devices table of src/shared/schema.ts:
id, name, ipAddress (notNull), macAddress (nullable), deviceType
(notNull, default "other"), os (nullable), description (nullable),
status (notNull, default "unknown"), lastSeenAt (nullable timestamp),
lastCheckedAt (nullable timestamp). -/
structure Device where
  id : String
  name : String
  ipAddress : String
  macAddress : Option String
  deviceType : String
  os : Option String
  description : Option String
  status : String
  lastSeenAt : Option Nat
  lastCheckedAt : Option Nat
deriving Repr, DecidableEq

/-- DatabaseStorage.getAllDevices (src/server/storage.ts): select all rows
of the devices table. -/
def getAllDevices (store : List Device) : List Device := store

/-- The updateData object built inside DatabaseStorage.updateDeviceStatus
(src/server/storage.ts): it always carries status and
lastCheckedAt = new Date(), and carries lastSeenAt only when the
lastSeenAt argument was supplied (if (lastSeenAt) ...). Applying it to a
row sets exactly those columns and leaves every other column unchanged. -/
def applyStatusUpdate (now : Nat) (status : String) (lastSeenAt : Option Nat)
    (d : Device) : Device :=
  { d with
    status := status
    lastCheckedAt := some now
    lastSeenAt :=
      match lastSeenAt with
      | some t => some t
      | none => d.lastSeenAt }

/-- DatabaseStorage.updateDeviceStatus (src/server/storage.ts): update the
rows whose id matches, returning the updated store together with the
first updated row (the [device] destructuring of .returning()), or none
when no row matched (device || undefined). -/
def updateDeviceStatus (store : List Device) (id : String) (status : String)
    (lastSeenAt : Option Nat) (now : Nat) : List Device × Option Device :=
  (store.map fun d => if d.id = id then applyStatusUpdate now status lastSeenAt d else d,
   (store.find? fun d => d.id = id).map (applyStatusUpdate now status lastSeenAt))

/-- The ping invocation built by pingDevice (src/server/deviceMonitor.ts):
ping -c 1 -W 2 with the device address as target, run through execSync
with a hard timeout of 5000 milliseconds. -/
structure PingCmd where
  target : String
  count : Nat
  waitTimeoutSec : Nat
  hardTimeoutMs : Nat
deriving Repr, DecidableEq

/-- The concrete command pingDevice builds for a given address. -/
def pingCommand (ipAddress : String) : PingCmd :=
  { target := ipAddress, count := 1, waitTimeoutSec := 2, hardTimeoutMs := 5000 }

/-- pingDevice (src/server/deviceMonitor.ts): one execSync call of the
ping command; a successful exit means reachable (true), any exception
(nonzero exit, timeout, malformed address, missing tool) is caught by the
catch clause and means unreachable (false). The second component is the
list of probe commands issued during the call, recording that exactly one
probe is issued, with no retry. The exec oracle gives the outcome of the
subprocess: ok stdout, or error for any thrown exception. -/
def pingDevice (exec : PingCmd → Except String String) (ipAddress : String) :
    Bool × List PingCmd :=
  let cmd := pingCommand ipAddress
  match exec cmd with
  | Except.ok _ => (true, [cmd])
  | Except.error _ => (false, [cmd])

/-- One iteration of the for-loop of checkAllDevices
(src/server/deviceMonitor.ts): probe the device address, derive
status ("online" / "offline") and the optional lastSeenAt (now when
reachable, undefined otherwise), and write them back through
updateDeviceStatus. Returns the store after the write. -/
def probeStep (exec : PingCmd → Except String String) (now : Nat)
    (store : List Device) (device : Device) : List Device :=
  let isOnline := (pingDevice exec device.ipAddress).1
  let status := if isOnline then "online" else "offline"
  let lastSeenAt := if isOnline then some now else (none : Option Nat)
  (updateDeviceStatus store device.id status lastSeenAt now).1

/-- The effect of one loop iteration for device on a single row of the
store; probeStep is the pointwise map of this function. -/
def probeUpdate (exec : PingCmd → Except String String) (now : Nat)
    (device x : Device) : Device :=
  let isOnline := (pingDevice exec device.ipAddress).1
  let status := if isOnline then "online" else "offline"
  let lastSeenAt := if isOnline then some now else (none : Option Nat)
  if x.id = device.id then applyStatusUpdate now status lastSeenAt x else x

/-- The body of the try-block of checkAllDevices, iterating the loop over
the snapshot of devices fetched at the start of the pass. The writeOk
oracle says whether the database write for a given device id succeeds or
throws; a throw escapes the loop at once, so the error case carries the
store as committed so far. The probe itself cannot throw (pingDevice
catches everything). -/
def passBody (exec : PingCmd → Except String String) (writeOk : String → Bool)
    (now : Nat) : List Device → List Device → Except (List Device × String) (List Device)
  | store, [] => Except.ok store
  | store, device :: rest =>
    if writeOk device.id then
      passBody exec writeOk now (probeStep exec now store device) rest
    else
      Except.error (store, "update failed")

/-- checkAllDevices (src/server/deviceMonitor.ts): try { read the full
device list; loop over it } catch (error) { console.error }. The readOk
oracle says whether the initial getAllDevices read succeeds; a failed
read throws before any write. An Except.error result would model an
exception escaping checkAllDevices to its caller; the catch clause turns
every throw into a logged, normal return, so the result is always ok,
carrying the store as left by the pass. -/
def checkAllDevices (readOk : Bool) (exec : PingCmd → Except String String)
    (writeOk : String → Bool) (now : Nat) (store : List Device) :
    Except String (List Device) :=
  match (if readOk then passBody exec writeOk now store (getAllDevices store)
         else Except.error (store, "read failed")) with
  | Except.ok s => Except.ok s
  | Except.error (s, _) => Except.ok s

/-- MONITOR_INTERVAL (src/server/deviceMonitor.ts): check every 60
seconds. -/
def MONITOR_INTERVAL : Nat := 60000

/-- State of the monitor module together with the runtime timer registry:
monitorInterval is the module-level handle variable
(NodeJS.Timeout | null), activeTimers the intervals registered with the
runtime as (handle, period in ms) pairs, inFlight the number of
checkAllDevices passes currently executing (a pass is asynchronous: it
awaits database calls, so it can still be running when a timer fires),
and nextHandle a fresh-handle counter. -/
structure MonitorState where
  monitorInterval : Option Nat
  activeTimers : List (Nat × Nat)
  inFlight : Nat
  nextHandle : Nat
deriving Repr, DecidableEq

/-- Initial state: module loaded, monitorInterval = null, no timers, no
pass running. -/
def initMonitor : MonitorState :=
  { monitorInterval := none, activeTimers := [], inFlight := 0, nextHandle := 0 }

/-- Events of the monitor lifecycle: the exported startDeviceMonitor and
stopDeviceMonitor calls, a registered interval timer firing (tick h for
the timer with handle h), and a running pass completing. -/
inductive MEvent where
  | start : MEvent
  | stop : MEvent
  | tick : Nat → MEvent
  | passEnd : MEvent
deriving Repr, DecidableEq

/-- Step function of the monitor lifecycle, from src/server/deviceMonitor.ts:
startDeviceMonitor returns at once if monitorInterval is set, otherwise
it launches an immediate pass and registers an interval of
MONITOR_INTERVAL ms; stopDeviceMonitor clears the registered interval and
nulls the handle if one is set, and does nothing otherwise (it does not
touch the in-flight pass count); a tick of a registered timer invokes
checkAllDevices unconditionally, because neither setInterval nor
checkAllDevices carries any reentrancy guard, so a new pass starts even
while one is in flight; passEnd retires one running pass. -/
def monitorStep (s : MonitorState) : MEvent → MonitorState
  | MEvent.start =>
    match s.monitorInterval with
    | some _ => s
    | none =>
      { monitorInterval := some s.nextHandle
        activeTimers := (s.nextHandle, MONITOR_INTERVAL) :: s.activeTimers
        inFlight := s.inFlight + 1
        nextHandle := s.nextHandle + 1 }
  | MEvent.stop =>
    match s.monitorInterval with
    | some h =>
      { s with
        monitorInterval := none
        activeTimers := s.activeTimers.filter fun t => ¬ t.1 = h }
    | none => s
  | MEvent.tick h =>
    if s.activeTimers.any fun t => t.1 = h then
      { s with inFlight := s.inFlight + 1 }
    else s
  | MEvent.passEnd =>
    if 0 < s.inFlight then { s with inFlight := s.inFlight - 1 } else s

/-- Run the monitor lifecycle over a trace of events. -/
def monitorRun (s : MonitorState) (tr : List MEvent) : MonitorState :=
  tr.foldl monitorStep s

/-- Invariant tying the module-level handle to the runtime timer
registry: when the monitor is running exactly its one interval is
registered, when it is stopped none is. -/
def MonitorInv (s : MonitorState) : Prop :=
  s.activeTimers = s.monitorInterval.elim [] fun h => [(h, MONITOR_INTERVAL)]

/-- InsertDevice (src/shared/schema.ts insertDeviceSchema): the user
create payload. createInsertSchema(devices).omit strips id, status,
lastSeenAt and lastCheckedAt, so the schema has no status field at all;
deviceType is optional because the column has a default. -/
structure InsertDevice where
  name : String
  ipAddress : String
  macAddress : Option String
  deviceType : Option String
  os : Option String
  description : Option String
deriving Repr, DecidableEq

/-- DatabaseStorage.createDevice (src/server/storage.ts), as invoked by
POST /api/devices (src/server/routes.ts) on a payload accepted by
insertDeviceSchema: inserts a new row, whose id is the generated key and
whose status, lastSeenAt and lastCheckedAt take the column defaults
"unknown", null, null. Returns the new store and the created row. -/
def createDevice (store : List Device) (freshId : String) (ins : InsertDevice) :
    List Device × Device :=
  let d : Device :=
    { id := freshId
      name := ins.name
      ipAddress := ins.ipAddress
      macAddress := ins.macAddress
      deviceType := ins.deviceType.getD "other"
      os := ins.os
      description := ins.description
      status := "unknown"
      lastSeenAt := none
      lastCheckedAt := none }
  (store ++ [d], d)

/-- Partial<InsertDevice> (PATCH /api/devices/:id parses the body with
insertDeviceSchema.partial()): every InsertDevice field optional; there
is still no status, lastSeenAt or lastCheckedAt field. -/
structure DeviceUpdate where
  name : Option String
  ipAddress : Option String
  macAddress : Option (Option String)
  deviceType : Option String
  os : Option (Option String)
  description : Option (Option String)
deriving Repr, DecidableEq

/-- Applying a partial update to a row: supplied fields overwrite, absent
fields keep the row value; status and the probe timestamps are not part
of the update shape and are always kept. -/
def applyDeviceUpdate (u : DeviceUpdate) (d : Device) : Device :=
  { d with
    name := u.name.getD d.name
    ipAddress := u.ipAddress.getD d.ipAddress
    macAddress := u.macAddress.getD d.macAddress
    deviceType := u.deviceType.getD d.deviceType
    os := u.os.getD d.os
    description := u.description.getD d.description }

/-- DatabaseStorage.updateDevice (src/server/storage.ts): set the partial
update on the matching row, returning the updated store and the first
updated row or none. -/
def updateDevice (store : List Device) (id : String) (u : DeviceUpdate) :
    List Device × Option Device :=
  (store.map fun d => if d.id = id then applyDeviceUpdate u d else d,
   (store.find? fun d => d.id = id).map (applyDeviceUpdate u))

/-- DatabaseStorage.deleteDevice (src/server/storage.ts): delete the
matching rows; true when something was deleted. -/
def deleteDevice (store : List Device) (id : String) : List Device × Bool :=
  (store.filter fun d => ¬ d.id = id, store.any fun d => d.id = id)

/-- The device mutations reachable through the user-facing HTTP API
(src/server/routes.ts): create (POST), partial edit (PATCH), delete
(DELETE). The monitor write-back updateDeviceStatus is not among them: no
route calls it. -/
inductive ApiOp where
  | create : String → InsertDevice → ApiOp
  | edit : String → DeviceUpdate → ApiOp
  | delete : String → ApiOp
deriving Repr, DecidableEq

/-- Effect of one API operation on the device table. -/
def applyApiOp (store : List Device) : ApiOp → List Device
  | ApiOp.create freshId ins => (createDevice store freshId ins).1
  | ApiOp.edit id u => (updateDevice store id u).1
  | ApiOp.delete id => (deleteDevice store id).1

/-- Effect of a sequence of API operations. -/
def applyApiOps (store : List Device) (ops : List ApiOp) : List Device :=
  ops.foldl applyApiOp store

/-! Concrete fixtures used to evaluate the development on closed inputs. -/

/-- An exec oracle under which exactly the address 10.0.0.1 answers the
ping and every other address makes the subprocess fail. -/
def execW : PingCmd → Except String String := fun c =>
  if c.target = "10.0.0.1" then Except.ok "1 packets transmitted" else Except.error "exit 1"

/-- A store write oracle under which the write for device id a throws and
every other write succeeds. -/
def writeFailA : String → Bool := fun i => if i = "a" then false else true

/-- A device at a reachable address, never seen before. -/
def devA : Device :=
  { id := "a", name := "alpha", ipAddress := "10.0.0.1", macAddress := none,
    deviceType := "server", os := none, description := none,
    status := "unknown", lastSeenAt := none, lastCheckedAt := none }

/-- A device at an unreachable address, last seen at time 3. -/
def devB : Device :=
  { id := "b", name := "beta", ipAddress := "10.0.0.99", macAddress := none,
    deviceType := "other", os := none, description := none,
    status := "online", lastSeenAt := some 3, lastCheckedAt := some 3 }

/-- A concrete create payload. -/
def insX : InsertDevice :=
  { name := "gamma", ipAddress := "10.0.0.5", macAddress := none,
    deviceType := none, os := none, description := none }

/-- A concrete partial edit payload, renaming the device only. -/
def updX : DeviceUpdate :=
  { name := some "renamed", ipAddress := none, macAddress := none,
    deviceType := none, os := none, description := none }

/-! Helper lemmas about the store operations. -/

lemma applyStatusUpdate_id (now : Nat) (status : String) (seen : Option Nat)
    (d : Device) : (applyStatusUpdate now status seen d).id = d.id := rfl

lemma not_mem_ids {store : List Device} {id : String}
    (h : id ∉ store.map Device.id) : ∀ d ∈ store, ¬ d.id = id :=
  fun _ hd heq => h (heq ▸ List.mem_map_of_mem Device.id hd)

lemma map_no_match (store : List Device) (f : Device → Device) (id : String)
    (h : ∀ d ∈ store, ¬ d.id = id) :
    (store.map fun d => if d.id = id then f d else d) = store := by
  induction store with
  | nil => rfl
  | cons a t ih =>
    simp only [List.map_cons]
    rw [if_neg (h a (List.mem_cons_self a t)),
      ih fun d hd => h d (List.mem_cons_of_mem a hd)]

lemma find_no_match (store : List Device) (id : String)
    (h : ∀ d ∈ store, ¬ d.id = id) :
    (store.find? fun d => d.id = id) = none := by
  induction store with
  | nil => rfl
  | cons a t ih =>
    rw [List.find?_cons_of_neg t (by simpa using h a (List.mem_cons_self a t)),
      ih fun d hd => h d (List.mem_cons_of_mem a hd)]

lemma find_id_self (store : List Device) (d : Device) (hd : d ∈ store)
    (hnd : (store.map Device.id).Nodup) :
    (store.find? fun x => x.id = d.id) = some d := by
  induction store with
  | nil => cases hd
  | cons a t ih =>
    have hnd2 : (a.id :: t.map Device.id).Nodup := by
      simpa only [List.map_cons] using hnd
    have hnd' := List.nodup_cons.mp hnd2
    rcases List.mem_cons.mp hd with h | h
    · subst h
      exact List.find?_cons_of_pos t (by simp)
    · have hne : ¬ a.id = d.id := by
        intro he
        exact hnd'.1 (he ▸ List.mem_map_of_mem Device.id h)
      rw [List.find?_cons_of_neg t (by simpa using hne)]
      exact ih h hnd'.2

lemma updateDeviceStatus_miss (store : List Device) (id status : String)
    (seen : Option Nat) (now : Nat) (h : id ∉ store.map Device.id) :
    updateDeviceStatus store id status seen now = (store, none) := by
  unfold updateDeviceStatus
  rw [map_no_match _ _ _ (not_mem_ids h), find_no_match _ _ (not_mem_ids h)]
  rfl

/-! Helper lemmas about one pass of the monitor. -/

lemma probeStep_eq_map (exec : PingCmd → Except String String) (now : Nat)
    (store : List Device) (device : Device) :
    probeStep exec now store device = store.map (probeUpdate exec now device) := rfl

lemma passBody_all_writes_ok (exec : PingCmd → Except String String)
    (writeOk : String → Bool) (now : Nat) (devs : List Device) :
    ∀ store : List Device, (∀ dev ∈ devs, writeOk dev.id = true) →
      passBody exec writeOk now store devs
        = Except.ok (devs.foldl (probeStep exec now) store) := by
  induction devs with
  | nil => intro store _; rfl
  | cons dev rest ih =>
    intro store h
    unfold passBody
    rw [h dev (List.mem_cons_self dev rest)]
    simp only [if_true, List.foldl_cons]
    exact ih _ fun p hp => h p (List.mem_cons_of_mem dev hp)

lemma passBody_write_failure (exec : PingCmd → Except String String)
    (writeOk : String → Bool) (now : Nat) (pre : List Device) :
    ∀ store : List Device, ∀ dev : Device, ∀ rest : List Device,
      (∀ p ∈ pre, writeOk p.id = true) → writeOk dev.id = false →
      passBody exec writeOk now store (pre ++ dev :: rest)
        = Except.error (pre.foldl (probeStep exec now) store, "update failed") := by
  induction pre with
  | nil =>
    intro store dev rest _ hdev
    simp only [List.nil_append, List.foldl_nil]
    unfold passBody
    rw [hdev]
    rfl
  | cons p pre' ih =>
    intro store dev rest hpre hdev
    have hp : writeOk p.id = true := hpre p (List.mem_cons_self p pre')
    simp only [List.cons_append, List.foldl_cons]
    unfold passBody
    rw [hp]
    simp only [if_true]
    exact ih _ dev rest (fun q hq => hpre q (List.mem_cons_of_mem p hq)) hdev

lemma foldl_map_comm (g : Device → Device → Device) (devs : List Device) :
    ∀ s : List Device,
      devs.foldl (fun acc dev => acc.map (g dev)) s
        = s.map fun x => devs.foldl (fun y dev => g dev y) x := by
  induction devs with
  | nil => intro s; simp [List.map_id']
  | cons dev rest ih =>
    intro s
    simp only [List.foldl_cons]
    rw [ih (s.map (g dev)), List.map_map]
    rfl

lemma foldl_skip (g : Device → Device → Device) (devs : List Device) :
    ∀ y : Device, y.id ∉ devs.map Device.id →
      devs.foldl (fun y dev => if y.id = dev.id then g dev y else y) y = y := by
  induction devs with
  | nil => intro y _; rfl
  | cons dev rest ih =>
    intro y hy
    simp only [List.map_cons, List.mem_cons] at hy
    push_neg at hy
    simp only [List.foldl_cons, if_neg hy.1]
    exact ih y hy.2

lemma foldl_pointwise (g : Device → Device → Device)
    (hid : ∀ dev y, (g dev y).id = y.id) (devs : List Device) :
    ∀ x : Device, x ∈ devs → (devs.map Device.id).Nodup →
      devs.foldl (fun y dev => if y.id = dev.id then g dev y else y) x = g x x := by
  induction devs with
  | nil => intro x hx; cases hx
  | cons dev rest ih =>
    intro x hx hnd
    have hnd2 : (dev.id :: rest.map Device.id).Nodup := by
      simpa only [List.map_cons] using hnd
    have hnd' := List.nodup_cons.mp hnd2
    rcases List.mem_cons.mp hx with h | h
    · subst h
      simp only [List.foldl_cons, if_pos rfl]
      exact foldl_skip g rest (g x x) (by rw [hid]; exact hnd'.1)
    · have hne : ¬ x.id = dev.id := by
        intro he
        exact hnd'.1 (he ▸ List.mem_map_of_mem Device.id h)
      simp only [List.foldl_cons, if_neg hne]
      exact ih x h hnd'.2

lemma checkAllDevices_always_ok (readOk : Bool)
    (exec : PingCmd → Except String String) (writeOk : String → Bool)
    (now : Nat) (store : List Device) :
    ∃ s : List Device, checkAllDevices readOk exec writeOk now store = Except.ok s := by
  unfold checkAllDevices
  cases hb : (if readOk then passBody exec writeOk now store (getAllDevices store)
              else Except.error (store, "read failed")) with
  | ok s => exact ⟨s, rfl⟩
  | error e => exact ⟨e.1, rfl⟩

lemma probe_fold_self (exec : PingCmd → Except String String) (now : Nat)
    (devs : List Device) (x : Device) (hx : x ∈ devs)
    (hnd : (devs.map Device.id).Nodup) :
    devs.foldl (fun y dev => probeUpdate exec now dev y) x
      = applyStatusUpdate now
          (if (pingDevice exec x.ipAddress).1 then "online" else "offline")
          (if (pingDevice exec x.ipAddress).1 then some now else (none : Option Nat)) x :=
  foldl_pointwise
    (fun dev y => applyStatusUpdate now
      (if (pingDevice exec dev.ipAddress).1 then "online" else "offline")
      (if (pingDevice exec dev.ipAddress).1 then some now else (none : Option Nat)) y)
    (fun _ _ => rfl) devs x hx hnd

/-! Theorems settling the claims. -/

/-- C1: for every device probed in a pass with a working store, if the
probe reports reachable the write-back sets status online, lastCheckedAt
to the pass time and lastSeenAt to the pass time; if the probe reports
unreachable it sets status offline, lastCheckedAt to the pass time, and
leaves lastSeenAt unchanged from before the pass. -/
theorem checkAllDevices_writeback (exec : PingCmd → Except String String)
    (now : Nat) (store : List Device) (d : Device)
    (hnd : (store.map Device.id).Nodup) (hd : d ∈ store) :
    ∃ store' d', checkAllDevices true exec (fun _ => true) now store = Except.ok store' ∧
      d' ∈ store' ∧ d'.id = d.id ∧ d'.lastCheckedAt = some now ∧
      ((pingDevice exec d.ipAddress).1 = true →
        d'.status = "online" ∧ d'.lastSeenAt = some now) ∧
      ((pingDevice exec d.ipAddress).1 = false →
        d'.status = "offline" ∧ d'.lastSeenAt = d.lastSeenAt) := by
  have hall : ∀ dev ∈ getAllDevices store, (fun _ : String => true) dev.id = true :=
    fun _ _ => rfl
  have h1 : checkAllDevices true exec (fun _ => true) now store
      = Except.ok (store.foldl (probeStep exec now) store) := by
    unfold checkAllDevices
    rw [if_pos rfl,
      passBody_all_writes_ok exec (fun _ => true) now (getAllDevices store) store hall]
    rfl
  have h2 : store.foldl (probeStep exec now) store
      = store.map fun x => store.foldl (fun y dev => probeUpdate exec now dev y) x :=
    foldl_map_comm (probeUpdate exec now) store store
  have h3 := probe_fold_self exec now store d hd hnd
  refine ⟨store.foldl (probeStep exec now) store,
    applyStatusUpdate now
      (if (pingDevice exec d.ipAddress).1 then "online" else "offline")
      (if (pingDevice exec d.ipAddress).1 then some now else (none : Option Nat)) d,
    h1, ?_, rfl, rfl, ?_, ?_⟩
  · rw [h2, ← h3]
    exact List.mem_map_of_mem _ hd
  · intro hping
    constructor
    · simp [applyStatusUpdate, hping]
    · simp [applyStatusUpdate, hping]
  · intro hping
    constructor
    · simp [applyStatusUpdate, hping]
    · simp [applyStatusUpdate, hping]

/-- Witness for C1 at a concrete input: a two-device store, device b
unreachable under the fixture oracle, probed at time 7. -/
theorem checkAllDevices_writeback_witness :
    ([devA, devB].map Device.id).Nodup ∧ devB ∈ [devA, devB] ∧
    (∃ store' d',
      checkAllDevices true execW (fun _ => true) 7 [devA, devB] = Except.ok store' ∧
      d' ∈ store' ∧ d'.id = devB.id ∧ d'.lastCheckedAt = some 7 ∧
      ((pingDevice execW devB.ipAddress).1 = true →
        d'.status = "online" ∧ d'.lastSeenAt = some 7) ∧
      ((pingDevice execW devB.ipAddress).1 = false →
        d'.status = "offline" ∧ d'.lastSeenAt = devB.lastSeenAt)) :=
  ⟨by decide, by decide,
    checkAllDevices_writeback execW 7 [devA, devB] devB (by decide) (by decide)⟩

/-- C2 counterexample: in a pass at time 7 over the two-device store
[devA, devB] in which only the write for device a fails (device b probes
and writes fine on its own), the pass ends with the store completely
unchanged: device b was never probed nor written back — its lastCheckedAt
is still none instead of some 7 — so one device's write failure did abort
the processing of the remaining devices. -/
theorem pass_isolation_counterexample :
    writeFailA devB.id = true ∧
    checkAllDevices true execW writeFailA 7 [devA, devB] = Except.ok [devA, devB] ∧
    devB.lastCheckedAt ≠ some 7 := by
  refine ⟨rfl, ?_, by decide⟩
  rfl

/-- C2 as amended: a probe failure for one device is handled inside
pingDevice and does not abort anything, but a store write failure for one
device aborts the processing of all devices after it in that pass; the
thrown error is caught and logged at pass level (checkAllDevices still
returns normally), not per device. -/
theorem pass_isolation_amended :
    (∀ exec : PingCmd → Except String String, ∀ ip e,
      exec (pingCommand ip) = Except.error e → (pingDevice exec ip).1 = false) ∧
    (∀ exec : PingCmd → Except String String, ∀ writeOk : String → Bool,
      ∀ now : Nat, ∀ store pre rest : List Device, ∀ dev : Device,
      (∀ p ∈ pre, writeOk p.id = true) → writeOk dev.id = false →
      passBody exec writeOk now store (pre ++ dev :: rest)
        = Except.error (pre.foldl (probeStep exec now) store, "update failed")) ∧
    (∀ readOk : Bool, ∀ exec : PingCmd → Except String String,
      ∀ writeOk : String → Bool, ∀ now : Nat, ∀ store : List Device,
      ∃ s, checkAllDevices readOk exec writeOk now store = Except.ok s) := by
  refine ⟨?_, ?_, ?_⟩
  · intro exec ip e he
    simp [pingDevice, he]
  · intro exec writeOk now store pre rest dev hpre hdev
    exact passBody_write_failure exec writeOk now pre store dev rest hpre hdev
  · intro readOk exec writeOk now store
    exact checkAllDevices_always_ok readOk exec writeOk now store

/-- Witness for the amended C2 at concrete inputs: a failing probe under
the fixture oracle yields unreachable; a failing first write makes the
pass error out before touching the second device, and checkAllDevices
still returns normally. -/
theorem pass_isolation_amended_witness :
    (execW (pingCommand "10.0.0.99") = Except.error "exit 1" ∧
      (pingDevice execW "10.0.0.99").1 = false) ∧
    ((∀ p ∈ ([] : List Device), writeFailA p.id = true) ∧
      writeFailA devA.id = false ∧
      passBody execW writeFailA 7 [devA, devB] ([] ++ devA :: [devB])
        = Except.error (([] : List Device).foldl (probeStep execW 7) [devA, devB],
            "update failed")) ∧
    (∃ s, checkAllDevices true execW writeFailA 7 [devA, devB] = Except.ok s) := by
  obtain ⟨h1, h2, h3⟩ := pass_isolation_amended
  refine ⟨⟨rfl, h1 execW "10.0.0.99" "exit 1" rfl⟩,
    ⟨fun p hp => absurd hp (List.not_mem_nil p), rfl,
      h2 execW writeFailA 7 [devA, devB] [] [devB] devA
        (fun p hp => absurd hp (List.not_mem_nil p)) rfl⟩,
    h3 true execW writeFailA 7 [devA, devB]⟩

/-- C4: whatever the store and the probe do — the initial read may fail,
every probe may fail, every write may fail — checkAllDevices returns
normally (the catch clause swallows every throw), and total failure
degrades to no device being updated that tick: the store comes back
unchanged. -/
theorem pass_never_raises (readOk : Bool) (exec : PingCmd → Except String String)
    (writeOk : String → Bool) (now : Nat) (store : List Device) :
    (∃ s, checkAllDevices readOk exec writeOk now store = Except.ok s) ∧
    (readOk = false ∨ (∀ i, writeOk i = false) →
      checkAllDevices readOk exec writeOk now store = Except.ok store) := by
  constructor
  · exact checkAllDevices_always_ok readOk exec writeOk now store
  · intro hfail
    rcases hfail with hread | hw
    · subst hread
      rfl
    · cases readOk with
      | false => rfl
      | true =>
        cases store with
        | nil => rfl
        | cons d rest =>
          have hb := passBody_write_failure exec writeOk now [] (d :: rest) d rest
            (fun p hp => absurd hp (List.not_mem_nil p)) (hw d.id)
          simp only [List.nil_append, List.foldl_nil] at hb
          unfold checkAllDevices getAllDevices
          rw [if_pos rfl, hb]

/-- Witness for C4 at a concrete input: read failure and total write
failure at once; the pass returns ok with the store untouched. -/
theorem pass_never_raises_witness :
    (∃ s, checkAllDevices false execW (fun _ => false) 7 [devA, devB] = Except.ok s) ∧
    ((false = false ∨ ∀ i : String, (fun _ : String => false) i = false) ∧
      checkAllDevices false execW (fun _ => false) 7 [devA, devB]
        = Except.ok [devA, devB]) := by
  have h := pass_never_raises false execW (fun _ => false) 7 [devA, devB]
  exact ⟨h.1, Or.inl rfl, h.2 (Or.inl rfl)⟩

/-- C3 counterexample: start the monitor; the immediate pass is still in
flight (inFlight is positive and no passEnd has occurred) when the
registered interval timer, handle 0, fires — and the tick starts a
second, overlapping pass: two passes are then in flight at once. -/
theorem monitor_reentrancy_counterexample :
    0 < (monitorRun initMonitor [MEvent.start]).inFlight ∧
    (monitorRun initMonitor [MEvent.start]).activeTimers ≠ [] ∧
    (monitorRun initMonitor [MEvent.start, MEvent.tick 0]).inFlight = 2 := by
  decide

/-- C3 as amended: the implementation has no reentrancy guard — whenever
a registered interval timer fires while a pass is still in flight, an
overlapping pass is started for that tick (the in-flight count grows by
one; the tick is neither skipped nor queued). -/
theorem monitor_tick_overlaps (s : MonitorState) (h : Nat)
    (htimer : (s.activeTimers.any fun t => t.1 = h) = true)
    (_hflight : 0 < s.inFlight) :
    (monitorStep s (MEvent.tick h)).inFlight = s.inFlight + 1 := by
  simp only [monitorStep]
  rw [if_pos htimer]

/-- Witness for the amended C3: in the state reached after start, the
timer with handle 0 is registered and a pass is in flight; the tick
raises the in-flight count to two. -/
theorem monitor_tick_overlaps_witness :
    ((monitorRun initMonitor [MEvent.start]).activeTimers.any fun t => t.1 = 0) = true ∧
    0 < (monitorRun initMonitor [MEvent.start]).inFlight ∧
    (monitorStep (monitorRun initMonitor [MEvent.start]) (MEvent.tick 0)).inFlight
      = (monitorRun initMonitor [MEvent.start]).inFlight + 1 :=
  ⟨by decide, by decide,
    monitor_tick_overlaps (monitorRun initMonitor [MEvent.start]) 0 (by decide) (by decide)⟩

/-- C5: pingDevice issues exactly one probe per call — a single echo
request with count 1 and a wait timeout of 2 seconds, bounded by a hard
subprocess timeout of 5000 ms — with no retry, and every failing exec
outcome (timeout, unreachable host, malformed address, tool failure)
yields unreachable (false) rather than an exception, while a successful
one yields reachable (true). -/
theorem pingDevice_single_probe (exec : PingCmd → Except String String) (ip : String) :
    (pingDevice exec ip).2 = [pingCommand ip] ∧
    (pingCommand ip).count = 1 ∧
    (pingCommand ip).waitTimeoutSec = 2 ∧
    (pingCommand ip).hardTimeoutMs = 5000 ∧
    (∀ e, exec (pingCommand ip) = Except.error e → (pingDevice exec ip).1 = false) ∧
    (∀ o, exec (pingCommand ip) = Except.ok o → (pingDevice exec ip).1 = true) := by
  refine ⟨?_, rfl, rfl, rfl, ?_, ?_⟩
  · simp only [pingDevice]
    cases hx : exec (pingCommand ip) <;> simp [hx]
  · intro e he
    simp [pingDevice, he]
  · intro o ho
    simp [pingDevice, ho]

/-- Witness for C5 under the fixture oracle: the failing address probes
to false, the answering address probes to true, and each call issues the
one-packet two-second command exactly once. -/
theorem pingDevice_single_probe_witness :
    (pingDevice execW "10.0.0.99").2 = [pingCommand "10.0.0.99"] ∧
    execW (pingCommand "10.0.0.99") = Except.error "exit 1" ∧
    (pingDevice execW "10.0.0.99").1 = false ∧
    execW (pingCommand "10.0.0.1") = Except.ok "1 packets transmitted" ∧
    (pingDevice execW "10.0.0.1").1 = true :=
  ⟨(pingDevice_single_probe execW "10.0.0.99").1, rfl,
    (pingDevice_single_probe execW "10.0.0.99").2.2.2.2.1 "exit 1" rfl, rfl,
    (pingDevice_single_probe execW "10.0.0.1").2.2.2.2.2 "1 packets transmitted" rfl⟩

/-- C6: a status write-back for an identifier no longer present in the
store is a benign no-op — updateDeviceStatus returns none rather than
raising and the store is unchanged — and a pass whose snapshot still
holds such a vanished device continues with the remaining devices exactly
as if the vanished device were absent from the snapshot. -/
theorem missing_device_writeback_noop (store : List Device) (id status : String)
    (seen : Option Nat) (now : Nat) (exec : PingCmd → Except String String)
    (writeOk : String → Bool) (ghost : Device) (rest : List Device)
    (hid : id ∉ store.map Device.id)
    (hghost : ghost.id ∉ store.map Device.id)
    (hw : writeOk ghost.id = true) :
    updateDeviceStatus store id status seen now = (store, none) ∧
    passBody exec writeOk now store (ghost :: rest)
      = passBody exec writeOk now store rest := by
  constructor
  · exact updateDeviceStatus_miss store id status seen now hid
  · have hps : probeStep exec now store ghost = store := by
      simp only [probeStep]
      rw [updateDeviceStatus_miss store ghost.id _ _ now hghost]
    show (if writeOk ghost.id then
        passBody exec writeOk now (probeStep exec now store ghost) rest
      else Except.error (store, "update failed")) = passBody exec writeOk now store rest
    rw [hw]
    simp only [if_true]
    rw [hps]

/-- Witness for C6: the store holds only device b; the id zz and the
vanished device a are not in it; the write-back misses benignly and the
pass over the snapshot [devA, devB] equals the pass over [devB]. -/
theorem missing_device_writeback_noop_witness :
    ("zz" ∉ [devB].map Device.id) ∧ (devA.id ∉ [devB].map Device.id) ∧
    updateDeviceStatus [devB] "zz" "offline" none 9 = ([devB], none) ∧
    passBody execW (fun _ => true) 9 [devB] (devA :: [devB])
      = passBody execW (fun _ => true) 9 [devB] [devB] := by
  have h := missing_device_writeback_noop [devB] "zz" "offline" none 9 execW
    (fun _ => true) devA [devB] (by decide) (by decide) rfl
  exact ⟨by decide, by decide, h.1, h.2⟩

lemma monitorInv_init : MonitorInv initMonitor := rfl

lemma monitorInv_step (s : MonitorState) (e : MEvent) (h : MonitorInv s) :
    MonitorInv (monitorStep s e) := by
  unfold MonitorInv at h ⊢
  cases e with
  | start =>
    cases hmi : s.monitorInterval with
    | some h0 =>
      simp only [monitorStep, hmi]
      rw [hmi] at h
      exact h
    | none =>
      rw [hmi] at h
      simp only [Option.elim] at h
      simp [monitorStep, hmi, h]
  | stop =>
    cases hmi : s.monitorInterval with
    | some h0 =>
      rw [hmi] at h
      simp only [Option.elim] at h
      simp [monitorStep, hmi, h]
    | none =>
      simp only [monitorStep, hmi]
      rw [hmi] at h
      exact h
  | tick h0 =>
    simp only [monitorStep]
    split
    · simpa using h
    · exact h
  | passEnd =>
    simp only [monitorStep]
    split
    · simpa using h
    · exact h

lemma monitorInv_run (tr : List MEvent) :
    ∀ s : MonitorState, MonitorInv s → MonitorInv (monitorRun s tr) := by
  induction tr with
  | nil => intro s h; exact h
  | cons e tr ih => intro s h; exact ih _ (monitorInv_step s e h)

/-- C7: the monitor lifecycle is the two-state machine on the handle
variable: from stopped, start runs an immediate pass and registers the
60000 ms interval; from running, start is a no-op; from running, stop
nulls the handle and deregisters the one interval without touching the
in-flight pass count; from stopped, stop is a no-op; and along every
event trace from the initial state at most one recurring interval is ever
registered. -/
theorem monitor_lifecycle_state_machine :
    MONITOR_INTERVAL = 60000 ∧
    (∀ s : MonitorState, s.monitorInterval = none →
      (monitorStep s MEvent.start).monitorInterval = some s.nextHandle ∧
      (monitorStep s MEvent.start).inFlight = s.inFlight + 1 ∧
      (monitorStep s MEvent.start).activeTimers
        = (s.nextHandle, MONITOR_INTERVAL) :: s.activeTimers) ∧
    (∀ s : MonitorState, ∀ h0 : Nat, s.monitorInterval = some h0 →
      monitorStep s MEvent.start = s) ∧
    (∀ s : MonitorState, ∀ h0 : Nat, s.monitorInterval = some h0 →
      (monitorStep s MEvent.stop).monitorInterval = none ∧
      (monitorStep s MEvent.stop).inFlight = s.inFlight ∧
      (MonitorInv s → (monitorStep s MEvent.stop).activeTimers = [])) ∧
    (∀ s : MonitorState, s.monitorInterval = none → monitorStep s MEvent.stop = s) ∧
    (∀ tr : List MEvent, (monitorRun initMonitor tr).activeTimers.length ≤ 1) := by
  refine ⟨rfl, ?_, ?_, ?_, ?_, ?_⟩
  · intro s hmi
    refine ⟨?_, ?_, ?_⟩ <;> simp [monitorStep, hmi]
  · intro s h0 hmi
    simp [monitorStep, hmi]
  · intro s h0 hmi
    refine ⟨?_, ?_, ?_⟩
    · simp [monitorStep, hmi]
    · simp [monitorStep, hmi]
    · intro hinv
      unfold MonitorInv at hinv
      rw [hmi] at hinv
      simp only [Option.elim] at hinv
      simp [monitorStep, hmi, hinv]
  · intro s hmi
    simp [monitorStep, hmi]
  · intro tr
    have hinv := monitorInv_run tr initMonitor monitorInv_init
    unfold MonitorInv at hinv
    cases hmo : (monitorRun initMonitor tr).monitorInterval with
    | some h0 =>
      rw [hmo] at hinv
      simp only [Option.elim] at hinv
      rw [hinv]
      exact Nat.le_refl 1
    | none =>
      rw [hmo] at hinv
      simp only [Option.elim] at hinv
      rw [hinv]
      decide

/-- Witness for C7 at concrete states: the start, double start, stop and
idle-stop transitions observed from the initial state, and the one-timer
bound on a concrete trace. -/
theorem monitor_lifecycle_witness :
    ((monitorStep initMonitor MEvent.start).monitorInterval = some initMonitor.nextHandle ∧
      (monitorStep initMonitor MEvent.start).inFlight = initMonitor.inFlight + 1 ∧
      (monitorStep initMonitor MEvent.start).activeTimers
        = (initMonitor.nextHandle, MONITOR_INTERVAL) :: initMonitor.activeTimers) ∧
    monitorStep (monitorStep initMonitor MEvent.start) MEvent.start
      = monitorStep initMonitor MEvent.start ∧
    (monitorStep (monitorStep initMonitor MEvent.start) MEvent.stop).monitorInterval
      = none ∧
    monitorStep initMonitor MEvent.stop = initMonitor ∧
    (monitorRun initMonitor [MEvent.start, MEvent.tick 0, MEvent.stop]).activeTimers.length ≤ 1 := by
  obtain ⟨_, hb, hc, hd, he, hf⟩ := monitor_lifecycle_state_machine
  exact ⟨hb initMonitor rfl,
    hc (monitorStep initMonitor MEvent.start) 0 (by decide),
    (hd (monitorStep initMonitor MEvent.start) 0 (by decide)).1,
    he initMonitor rfl,
    hf [MEvent.start, MEvent.tick 0, MEvent.stop]⟩

/-- C8: updateDeviceStatus is a partial update — on a present id it
returns the updated device, whose status is the argument, whose
lastCheckedAt is the write time, whose lastSeenAt is the supplied value
when one is supplied and the previous value otherwise, and whose other
columns (id, name, ipAddress, macAddress, deviceType, os, description)
are unchanged; on an absent id it returns the store unchanged and
none. -/
theorem updateDeviceStatus_partial_update :
    (∀ store : List Device, ∀ d : Device, ∀ status : String,
      ∀ seen : Option Nat, ∀ now : Nat,
      (store.map Device.id).Nodup → d ∈ store →
      ∃ d', (updateDeviceStatus store d.id status seen now).2 = some d' ∧
        d'.status = status ∧ d'.lastCheckedAt = some now ∧
        d'.lastSeenAt = (match seen with | some t => some t | none => d.lastSeenAt) ∧
        d'.id = d.id ∧ d'.name = d.name ∧ d'.ipAddress = d.ipAddress ∧
        d'.macAddress = d.macAddress ∧ d'.deviceType = d.deviceType ∧
        d'.os = d.os ∧ d'.description = d.description ∧
        d' ∈ (updateDeviceStatus store d.id status seen now).1) ∧
    (∀ store : List Device, ∀ id status : String, ∀ seen : Option Nat, ∀ now : Nat,
      id ∉ store.map Device.id →
      updateDeviceStatus store id status seen now = (store, none)) := by
  constructor
  · intro store d status seen now hnd hd
    refine ⟨applyStatusUpdate now status seen d, ?_, rfl, rfl, rfl, rfl, rfl, rfl,
      rfl, rfl, rfl, rfl, ?_⟩
    · show ((store.find? fun x => x.id = d.id).map (applyStatusUpdate now status seen))
        = some (applyStatusUpdate now status seen d)
      rw [find_id_self store d hd hnd]
      rfl
    · show applyStatusUpdate now status seen d
        ∈ store.map fun x => if x.id = d.id then applyStatusUpdate now status seen x else x
      have hm := List.mem_map_of_mem
        (fun x => if x.id = d.id then applyStatusUpdate now status seen x else x) hd
      simpa using hm
  · intro store id status seen now hid
    exact updateDeviceStatus_miss store id status seen now hid

/-- Witness for C8: a hit on device b of a two-device store with no
lastSeenAt supplied, and a miss on the absent id zz. -/
theorem updateDeviceStatus_partial_update_witness :
    (∃ d', (updateDeviceStatus [devA, devB] devB.id "offline" none 9).2 = some d' ∧
      d'.status = "offline" ∧ d'.lastCheckedAt = some 9 ∧
      d'.lastSeenAt = (match (none : Option Nat) with
        | some t => some t
        | none => devB.lastSeenAt) ∧
      d'.id = devB.id ∧ d'.name = devB.name ∧ d'.ipAddress = devB.ipAddress ∧
      d'.macAddress = devB.macAddress ∧ d'.deviceType = devB.deviceType ∧
      d'.os = devB.os ∧ d'.description = devB.description ∧
      d' ∈ (updateDeviceStatus [devA, devB] devB.id "offline" none 9).1) ∧
    updateDeviceStatus [devA, devB] "zz" "offline" none 9 = ([devA, devB], none) := by
  obtain ⟨h1, h2⟩ := updateDeviceStatus_partial_update
  exact ⟨h1 [devA, devB] devB "offline" none 9 (by decide) (by decide),
    h2 [devA, devB] "zz" "offline" none 9 (by decide)⟩

/-- C9: the user-facing device API cannot set status: the accepted create
payload has no status field and a created device starts with status
unknown; the accepted partial edit payload has no status field and
preserves the status of every row; hence under any sequence of user API
operations every device of a store of never-probed devices still has
status unknown — it changes only via the monitor write-back
updateDeviceStatus, which no route calls. -/
theorem api_never_sets_status :
    (∀ store : List Device, ∀ freshId : String, ∀ ins : InsertDevice,
      ((createDevice store freshId ins).2).status = "unknown" ∧
      ((createDevice store freshId ins).2).lastSeenAt = none ∧
      ((createDevice store freshId ins).2).lastCheckedAt = none) ∧
    (∀ store : List Device, ∀ id : String, ∀ u : DeviceUpdate, ∀ d : Device,
      d ∈ (updateDevice store id u).1 → ∃ d₀ ∈ store, d.status = d₀.status ∧
        d.lastSeenAt = d₀.lastSeenAt ∧ d.lastCheckedAt = d₀.lastCheckedAt) ∧
    (∀ store : List Device, ∀ ops : List ApiOp,
      (∀ d ∈ store, d.status = "unknown") →
      ∀ d ∈ applyApiOps store ops, d.status = "unknown") := by
  refine ⟨fun _ _ _ => ⟨rfl, rfl, rfl⟩, ?_, ?_⟩
  · intro store id u d hd
    have hd' : d ∈ store.map fun x => if x.id = id then applyDeviceUpdate u x else x := hd
    rcases List.mem_map.mp hd' with ⟨d₀, hd₀, heq⟩
    refine ⟨d₀, hd₀, ?_⟩
    rw [← heq]
    by_cases hcase : d₀.id = id
    · rw [if_pos hcase]
      exact ⟨rfl, rfl, rfl⟩
    · rw [if_neg hcase]
      exact ⟨rfl, rfl, rfl⟩
  · intro store ops
    induction ops generalizing store with
    | nil => intro h d hd; exact h d hd
    | cons op ops ih =>
      intro h
      refine ih (applyApiOp store op) ?_
      intro d hd
      cases op with
      | create fid ins =>
        have hd' : d ∈ store ++ [(createDevice store fid ins).2] := hd
        rcases List.mem_append.mp hd' with h1 | h1
        · exact h d h1
        · rw [List.mem_singleton.mp h1]
          rfl
      | edit id u =>
        have hd' : d ∈ store.map fun x => if x.id = id then applyDeviceUpdate u x else x := hd
        rcases List.mem_map.mp hd' with ⟨d₀, hd₀, heq⟩
        rw [← heq]
        by_cases hcase : d₀.id = id
        · rw [if_pos hcase]
          show (applyDeviceUpdate u d₀).status = "unknown"
          show d₀.status = "unknown"
          exact h d₀ hd₀
        · rw [if_neg hcase]
          exact h d₀ hd₀
      | delete id =>
        have hd' : d ∈ store.filter fun x => ¬ x.id = id := hd
        exact h d (List.mem_filter.mp hd').1

/-- Witness for C9: a fresh store created through the API, then edited;
every device still has status unknown. -/
theorem api_never_sets_status_witness :
    (((createDevice [] "n1" insX).2).status = "unknown" ∧
      ((createDevice [] "n1" insX).2).lastSeenAt = none ∧
      ((createDevice [] "n1" insX).2).lastCheckedAt = none) ∧
    (applyDeviceUpdate updX devA ∈ (updateDevice [devA] "a" updX).1 ∧
      ∃ d₀ ∈ [devA], (applyDeviceUpdate updX devA).status = d₀.status ∧
        (applyDeviceUpdate updX devA).lastSeenAt = d₀.lastSeenAt ∧
        (applyDeviceUpdate updX devA).lastCheckedAt = d₀.lastCheckedAt) ∧
    ((∀ d ∈ [devA], d.status = "unknown") ∧
      ∀ d ∈ applyApiOps [devA] [ApiOp.edit "a" updX, ApiOp.create "n1" insX],
        d.status = "unknown") := by
  obtain ⟨h1, h2, h3⟩ := api_never_sets_status
  exact ⟨h1 [] "n1" insX,
    ⟨by decide, h2 [devA] "a" updX (applyDeviceUpdate updX devA) (by decide)⟩,
    ⟨by decide, h3 [devA] [ApiOp.edit "a" updX, ApiOp.create "n1" insX] (by decide)⟩⟩

/-- C10: updateDeviceStatus validates nothing about its status argument —
any string at all, not only online and offline, is written verbatim into
the status column of the matching row and returned; the status domain is
upheld only by the callers of the store, not by the store operation. -/
theorem updateDeviceStatus_accepts_any_status (s : String) (store : List Device)
    (d : Device) (seen : Option Nat) (now : Nat)
    (hnd : (store.map Device.id).Nodup) (hd : d ∈ store) :
    (updateDeviceStatus store d.id s seen now).2 = some (applyStatusUpdate now s seen d) ∧
    (applyStatusUpdate now s seen d).status = s ∧
    applyStatusUpdate now s seen d ∈ (updateDeviceStatus store d.id s seen now).1 := by
  refine ⟨?_, rfl, ?_⟩
  · show ((store.find? fun x => x.id = d.id).map (applyStatusUpdate now s seen))
      = some (applyStatusUpdate now s seen d)
    rw [find_id_self store d hd hnd]
    rfl
  · show applyStatusUpdate now s seen d
      ∈ store.map fun x => if x.id = d.id then applyStatusUpdate now s seen x else x
    have hm := List.mem_map_of_mem
      (fun x => if x.id = d.id then applyStatusUpdate now s seen x else x) hd
    simpa using hm

/-- Witness for C10: the nonsense status string is stored verbatim on
device a. -/
theorem updateDeviceStatus_accepts_any_status_witness :
    (updateDeviceStatus [devA, devB] devA.id "definitely-not-a-status" none 11).2
      = some (applyStatusUpdate 11 "definitely-not-a-status" none devA) ∧
    (applyStatusUpdate 11 "definitely-not-a-status" none devA).status
      = "definitely-not-a-status" ∧
    applyStatusUpdate 11 "definitely-not-a-status" none devA
      ∈ (updateDeviceStatus [devA, devB] devA.id "definitely-not-a-status" none 11).1 :=
  updateDeviceStatus_accepts_any_status "definitely-not-a-status" [devA, devB] devA
    none 11 (by decide) (by decide)

end WastelandCompanion
